import Mathlib

/-!
Shallow embedding of the flight-simulator core (aircraft physics, mission
state machine, collision/warning evaluator and simulation driver) from
`aircraft.py`, `mission.py` and `main.py`.  Real-valued program quantities
are modelled over `ℝ`; pygame `Vector3` is modelled by `Vec3`; Python's
`float('inf')` seed of the building-distance minimum is modelled in `EReal`.
-/

namespace FlightSim

noncomputable section

/-- pygame.math.Vector3. -/
structure Vec3 where
  x : ℝ
  y : ℝ
  z : ℝ

namespace Vec3

def add (v w : Vec3) : Vec3 := ⟨v.x + w.x, v.y + w.y, v.z + w.z⟩

def smul (v : Vec3) (c : ℝ) : Vec3 := ⟨v.x * c, v.y * c, v.z * c⟩

/-- `Vector3.length()`. -/
def len (v : Vec3) : ℝ := Real.sqrt (v.x ^ 2 + v.y ^ 2 + v.z ^ 2)

/-- `Vector3.normalize()`: the vector divided by its length. -/
def normalize (v : Vec3) : Vec3 := ⟨v.x / v.len, v.y / v.len, v.z / v.len⟩

def zero : Vec3 := ⟨0, 0, 0⟩

end Vec3

/-! Aircraft constants fixed in `Aircraft.__init__` and never reconfigured
(the optional config file only overrides the five fields kept in the
`Aircraft` structure below). -/

def CL0 : ℝ := 0.2
def CL_alpha : ℝ := 5.0
def CD0 : ℝ := 0.025
def K : ℝ := 0.04
def max_speed : ℝ := 250
def min_speed : ℝ := 60
def service_ceiling : ℝ := 12000
def max_load_factor : ℝ := 2.5

/-- `aircraft.mission_data`: sampled histories plus the current phase tag. -/
structure MissionData where
  time : List ℝ
  altitude : List ℝ
  speed : List ℝ
  fuel : List ℝ
  range : List ℝ
  phase : String

def initMissionData : MissionData :=
  { time := [], altitude := [], speed := [], fuel := [], range := [], phase := "GROUND" }

/-- Python `int(x)`: truncation toward zero. -/
def pyInt (x : ℝ) : ℤ := if 0 ≤ x then ⌊x⌋ else -⌊-x⌋

/-- The keyboard keys read by `Aircraft.update` via `pygame.key.get_pressed()`. -/
structure Keys where
  w : Bool
  s : Bool
  a : Bool
  d : Bool
  q : Bool
  e : Bool
  lshift : Bool
  lctrl : Bool
  space : Bool

/-- No key pressed. -/
def noKeys : Keys := ⟨false, false, false, false, false, false, false, false, false⟩

/-- Mutable state of `Aircraft`; `mass .. fuel_flow_rate` are set at
construction (defaults or config file) and never written afterwards. -/
structure Aircraft where
  position : Vec3
  velocity : Vec3
  rotation : Vec3
  mass : ℝ
  wing_area : ℝ
  max_thrust : ℝ
  fuel_capacity : ℝ
  fuel_flow_rate : ℝ
  fuel_mass : ℝ
  throttle : ℝ
  mission_data : MissionData
  total_range : ℝ
  mission_time : ℝ

/-- `Aircraft.__init__` with the default (no config file) data. -/
def initAircraft : Aircraft :=
  { position := ⟨0, 500, 0⟩
    velocity := ⟨0, 0, 100⟩
    rotation := ⟨0, 0, 0⟩
    mass := 50000
    wing_area := 150
    max_thrust := 200000
    fuel_capacity := 15000
    fuel_flow_rate := 2.0
    fuel_mass := 15000 * 0.8
    throttle := 0.5
    mission_data := initMissionData
    total_range := 0
    mission_time := 0 }

namespace Aircraft

/-- `Aircraft.get_total_mass`. -/
def get_total_mass (a : Aircraft) : ℝ := a.mass + a.fuel_mass

/-- `Aircraft.get_thrust`. -/
def get_thrust (a : Aircraft) : ℝ :=
  let altitude_factor := if a.position.y < 20000 then 1.0 - a.position.y / 20000 else 0.5
  let speed := a.velocity.len
  let speed_factor := if speed < 1000 then 1.0 - speed / 1000 else 0.0
  a.max_thrust * a.throttle * altitude_factor * speed_factor

/-- `Aircraft.get_lift`. -/
def get_lift (a : Aircraft) (alpha : ℝ) : ℝ :=
  let rho := 1.225 * Real.exp (-a.position.y / 8000)
  let V := a.velocity.len
  if V < 0.1 then 0
  else
    let CL := CL0 + CL_alpha * alpha
    let CL := max (-1.5) (min 1.5 CL)
    0.5 * rho * V * V * a.wing_area * CL

/-- `Aircraft.get_drag` (the drag coefficient uses the unclamped CL). -/
def get_drag (a : Aircraft) (alpha : ℝ) : ℝ :=
  let rho := 1.225 * Real.exp (-a.position.y / 8000)
  let V := a.velocity.len
  if V < 0.1 then 0
  else
    let CL := CL0 + CL_alpha * alpha
    let CD := CD0 + K * CL * CL
    0.5 * rho * V * V * a.wing_area * CD

/-- `Aircraft.update_fuel` (the returned consumption value is unused by the
caller and dropped here). -/
def update_fuel (a : Aircraft) (dt : ℝ) : Aircraft :=
  let fuel_consumption := a.fuel_flow_rate * a.throttle * dt
  let altitude_efficiency :=
    if a.position.y < 15000 then 1.0 - a.position.y / 30000 else 0.5
  let fuel_consumption := fuel_consumption * altitude_efficiency
  { a with fuel_mass := max 0 (a.fuel_mass - fuel_consumption) }

/-- `Aircraft.update_physics`. -/
def update_physics (a : Aircraft) (dt : ℝ) : Aircraft :=
  let speed := a.velocity.len
  let alpha := if speed > 0.1 then a.rotation.x else 0
  let thrust := a.get_thrust
  let lift := a.get_lift alpha
  let drag := a.get_drag alpha
  let cos_pitch := Real.cos a.rotation.x
  let sin_pitch := Real.sin a.rotation.x
  let thrust_dir_y := sin_pitch
  let thrust_dir_z := cos_pitch
  let cos_yaw := Real.cos a.rotation.y
  let sin_yaw := Real.sin a.rotation.y
  let thrust_dir_x := thrust_dir_z * sin_yaw
  let thrust_dir_z := thrust_dir_z * cos_yaw
  let thrust_dir : Vec3 := ⟨thrust_dir_x, thrust_dir_y, thrust_dir_z⟩
  let mass := a.get_total_mass
  let thrust_accel := thrust_dir.smul (thrust / mass)
  let drag_accel :=
    if speed > 0.1 then a.velocity.normalize.smul (-drag / mass) else Vec3.zero
  let lift_accel : Vec3 := ⟨0, lift / mass, 0⟩
  let gravity : Vec3 := ⟨0, -9.81, 0⟩
  let acceleration := ((thrust_accel.add drag_accel).add lift_accel).add gravity
  let velocity := a.velocity.add (acceleration.smul dt)
  let speed := velocity.len
  let velocity := if speed > max_speed then velocity.normalize.smul max_speed else velocity
  let position := a.position.add (velocity.smul dt)
  let pv : Vec3 × Vec3 :=
    if position.y < 10 then
      (⟨position.x, 10, position.z⟩,
       if velocity.y < 0 then ⟨velocity.x, 0, velocity.z⟩ else velocity)
    else (position, velocity)
  let position := pv.1
  let velocity := pv.2
  let position :=
    if position.y > service_ceiling then ⟨position.x, service_ceiling, position.z⟩
    else position
  { a with velocity := velocity, position := position }

/-- `Aircraft.update_mission_data`.  `int(x)` is modelled by `pyInt`. -/
def update_mission_data (a : Aircraft) (dt : ℝ) : Aircraft :=
  let mission_time := a.mission_time + dt
  let horizontal_speed := Real.sqrt (a.velocity.x ^ 2 + a.velocity.z ^ 2)
  let total_range := a.total_range + horizontal_speed * dt
  let a := { a with mission_time := mission_time, total_range := total_range }
  if pyInt a.mission_time > (a.mission_data.time.length : ℤ) then
    { a with mission_data :=
      { a.mission_data with
        time := a.mission_data.time ++ [a.mission_time]
        altitude := a.mission_data.altitude ++ [a.position.y]
        speed := a.mission_data.speed ++ [a.velocity.len]
        fuel := a.mission_data.fuel ++ [a.fuel_mass]
        range := a.mission_data.range ++ [a.total_range] } }
  else a

/-- The per-tick keyboard control block of `Aircraft.update` (lines 142-174). -/
def apply_controls (a : Aircraft) (dt : ℝ) (k : Keys) : Aircraft :=
  let pitch_rate := 1.5 * dt
  let roll_rate := 2.0 * dt
  let yaw_rate := 1.0 * dt
  let a := if k.w then { a with rotation.x := min (Real.pi / 6) (a.rotation.x + pitch_rate) } else a
  let a := if k.s then { a with rotation.x := max (-(Real.pi / 6)) (a.rotation.x - pitch_rate) } else a
  let a := if k.a then { a with rotation.z := max (-(Real.pi / 3)) (a.rotation.z - roll_rate) } else a
  let a := if k.d then { a with rotation.z := min (Real.pi / 3) (a.rotation.z + roll_rate) } else a
  let a := if k.q then { a with rotation.y := a.rotation.y - yaw_rate } else a
  let a := if k.e then { a with rotation.y := a.rotation.y + yaw_rate } else a
  let a := if k.lshift then { a with throttle := min 1.0 (a.throttle + dt) } else a
  let a := if k.lctrl then { a with throttle := max 0.0 (a.throttle - dt) } else a
  let a := if k.space then
    { a with rotation.x := a.rotation.x * 0.95, rotation.z := a.rotation.z * 0.95 } else a
  a

/-- `Aircraft.update`. -/
def update (a : Aircraft) (dt : ℝ) (k : Keys) : Aircraft :=
  let a := if a.fuel_mass ≤ 0 then { a with throttle := 0 } else a
  let a := apply_controls a dt k
  let a := update_physics a dt
  let a := update_fuel a dt
  update_mission_data a dt

/-- `Aircraft.reset`. -/
def reset (a : Aircraft) : Aircraft :=
  { a with
    position := ⟨0, 500, 0⟩
    velocity := ⟨0, 0, 100⟩
    rotation := ⟨0, 0, 0⟩
    throttle := 0.5
    fuel_mass := a.fuel_capacity * 0.8
    total_range := 0
    mission_time := 0
    mission_data := initMissionData }

end Aircraft

/-! ## Mission profile (`mission.py`) -/

/-- The six segment names created by `create_default_mission` (string-keyed
in the source, where no other name ever occurs). -/
inductive SegName where
  | WUTO
  | CLIMB
  | CRUISE
  | TURN
  | DESCENT
  | LANDING
deriving DecidableEq

def SegName.str : SegName → String
  | .WUTO => "WUTO"
  | .CLIMB => "CLIMB"
  | .CRUISE => "CRUISE"
  | .TURN => "TURN"
  | .DESCENT => "DESCENT"
  | .LANDING => "LANDING"

/-- `MissionSegment`.  Every constructed segment carries both targets, while
`duration`/`distance` are optional; `turn_time` models the attribute added
dynamically by `execute_turn` (`none` = attribute absent). -/
structure MissionSegment where
  name : SegName
  target_altitude : ℝ
  target_speed : ℝ
  duration : Option ℝ
  distance : Option ℝ
  completed : Bool
  progress : ℝ
  turn_time : Option ℝ

/-- Placeholder segment used only as the default of out-of-range list reads
(the source never indexes out of range thanks to the update guard). -/
def dummySegment : MissionSegment :=
  { name := .WUTO, target_altitude := 0, target_speed := 0, duration := none,
    distance := none, completed := false, progress := 0, turn_time := none }

/-- `MissionSegment.__init__` for a freshly constructed segment. -/
def mkSegment (n : SegName) (ta ts : ℝ) (du di : Option ℝ) : MissionSegment :=
  { name := n, target_altitude := ta, target_speed := ts, duration := du,
    distance := di, completed := false, progress := 0, turn_time := none }

/-- `create_default_mission`. -/
def defaultSegments : List MissionSegment :=
  [ mkSegment .WUTO 100 80 (some 60) none
  , mkSegment .CLIMB 5000 150 none (some 50000)
  , mkSegment .CRUISE 5000 200 none (some 200000)
  , mkSegment .TURN 5000 180 (some 120) none
  , mkSegment .DESCENT 500 150 none (some 40000)
  , mkSegment .LANDING 0 70 none (some 10000) ]

/-- `MissionProfile.profile_data`. -/
structure ProfileData where
  altitude : List ℝ
  range : List ℝ
  fuel : List ℝ
  segments : List String

def initProfileData : ProfileData := { altitude := [], range := [], fuel := [], segments := [] }

/-- State of `MissionProfile` (the back reference to the aircraft is passed
explicitly to the operations). -/
structure Mission where
  segments : List MissionSegment
  current_segment_index : ℕ
  mission_complete : Bool
  total_fuel_consumed : ℝ
  total_distance : ℝ
  total_time : ℝ
  display_enabled : Bool
  profile_data : ProfileData

/-- `MissionProfile.__init__`. -/
def initMission : Mission :=
  { segments := defaultSegments, current_segment_index := 0, mission_complete := false,
    total_fuel_consumed := 0, total_distance := 0, total_time := 0,
    display_enabled := true, profile_data := initProfileData }

namespace Mission

/-- `execute_wuto`. -/
def execute_wuto (seg : MissionSegment) (a : Aircraft) (dt : ℝ) :
    MissionSegment × Aircraft :=
  if seg.progress < 30 then
    ({ seg with progress := seg.progress + dt }, { a with throttle := 0.3 })
  else
    let a := { a with throttle := 1.0 }
    if a.position.y ≥ seg.target_altitude then ({ seg with completed := true }, a)
    else (seg, a)

/-- `execute_climb`. -/
def execute_climb (seg : MissionSegment) (a : Aircraft) (dt : ℝ) :
    MissionSegment × Aircraft :=
  let target_alt := seg.target_altitude
  let current_alt := a.position.y
  if current_alt < target_alt then
    let altitude_error := target_alt - current_alt
    let desired_pitch := min 0.3 (altitude_error / 1000)
    let pitch_rate := 0.5 * dt
    let a :=
      if a.rotation.x < desired_pitch then
        { a with rotation.x := a.rotation.x + pitch_rate }
      else if a.rotation.x > desired_pitch then
        { a with rotation.x := a.rotation.x - pitch_rate }
      else a
    let current_speed := a.velocity.len
    let a :=
      if current_speed < seg.target_speed then
        { a with throttle := min 1.0 (a.throttle + dt * 0.5) }
      else
        { a with throttle := max 0.5 (a.throttle - dt * 0.5) }
    (seg, a)
  else
    ({ seg with completed := true }, { a with rotation.x := 0 })

/-- `execute_cruise` (`if segment.distance:` is Python truthiness; the
mission's CRUISE segment always carries a non-zero distance). -/
def execute_cruise (seg : MissionSegment) (a : Aircraft) (_dt : ℝ) :
    MissionSegment × Aircraft :=
  let altitude_error := seg.target_altitude - a.position.y
  let a := { a with rotation.x := altitude_error * 0.001 }
  let current_speed := a.velocity.len
  let speed_error := seg.target_speed - current_speed
  let a :=
    if |speed_error| > 5 then
      let throttle_adjustment := speed_error * 0.01
      { a with throttle := max 0.3 (min 1.0 (a.throttle + throttle_adjustment)) }
    else a
  match seg.distance with
  | some d =>
      let seg := { seg with progress := a.total_range }
      if seg.progress ≥ d then ({ seg with completed := true }, a) else (seg, a)
  | none => (seg, a)

/-- `execute_turn` (`turn_time` starts at 0 when the attribute is absent; the
mission's TURN segment always carries a duration). -/
def execute_turn (seg : MissionSegment) (a : Aircraft) (dt : ℝ) :
    MissionSegment × Aircraft :=
  let bank_angle := Real.pi / 6
  let t := seg.turn_time.getD 0 + dt
  let seg := { seg with turn_time := some t }
  let altitude_error := seg.target_altitude - a.position.y
  let a := { a with rotation.x := altitude_error * 0.001 }
  let a := { a with rotation.z := bank_angle }
  let turn_rate := 9.81 * Real.tan bank_angle / seg.target_speed
  let a := { a with rotation.y := a.rotation.y + turn_rate * dt }
  if t ≥ seg.duration.getD 0 then
    ({ seg with completed := true }, { a with rotation.z := 0 })
  else (seg, a)

/-- `execute_descent`. -/
def execute_descent (seg : MissionSegment) (a : Aircraft) (dt : ℝ) :
    MissionSegment × Aircraft :=
  let target_alt := seg.target_altitude
  let current_alt := a.position.y
  if current_alt > target_alt then
    let altitude_error := current_alt - target_alt
    let desired_pitch := -(min 0.2 (altitude_error / 2000))
    let pitch_rate := 0.3 * dt
    let a :=
      if a.rotation.x > desired_pitch then
        { a with rotation.x := a.rotation.x - pitch_rate }
      else a
    let a := { a with throttle := max 0.2 (a.throttle - dt * 0.3) }
    (seg, a)
  else
    ({ seg with completed := true }, { a with rotation.x := 0 })

/-- `execute_landing`. -/
def execute_landing (seg : MissionSegment) (a : Aircraft) (dt : ℝ) :
    MissionSegment × Aircraft :=
  let current_speed := a.velocity.len
  let a :=
    if current_speed > seg.target_speed then
      { a with throttle := max 0.1 (a.throttle - dt * 0.5) }
    else a
  if a.position.y > 10 then
    (seg, { a with rotation.x := -0.1 })
  else
    ({ seg with completed := true },
     { a with throttle := 0, velocity := Vec3.zero })

/-- `execute_segment`: sets the phase tag, then dispatches on the name. -/
def execute_segment (seg : MissionSegment) (a : Aircraft) (dt : ℝ) :
    MissionSegment × Aircraft :=
  let a := { a with mission_data.phase := seg.name.str }
  match seg.name with
  | .WUTO => execute_wuto seg a dt
  | .CLIMB => execute_climb seg a dt
  | .CRUISE => execute_cruise seg a dt
  | .TURN => execute_turn seg a dt
  | .DESCENT => execute_descent seg a dt
  | .LANDING => execute_landing seg a dt

/-- `record_profile_data`. -/
def record_profile_data (m : Mission) (a : Aircraft) : Mission :=
  if pyInt m.total_time > (m.profile_data.altitude.length : ℤ) then
    let segName :=
      if m.current_segment_index < m.segments.length then
        ((m.segments.getD m.current_segment_index dummySegment).name).str
      else "COMPLETE"
    { m with profile_data :=
      { m.profile_data with
        altitude := m.profile_data.altitude ++ [a.position.y]
        range := m.profile_data.range ++ [a.total_range]
        fuel := m.profile_data.fuel ++ [a.fuel_mass]
        segments := m.profile_data.segments ++ [segName] } }
  else m

/-- `MissionProfile.update`. -/
def update (m : Mission) (a : Aircraft) (dt : ℝ) : Mission × Aircraft :=
  if m.mission_complete = true ∨ m.segments.length ≤ m.current_segment_index then
    (m, a)
  else
    let current_segment := m.segments.getD m.current_segment_index dummySegment
    let sa := execute_segment current_segment a dt
    let seg := sa.1
    let a := sa.2
    let m := { m with segments := m.segments.set m.current_segment_index seg }
    let m := { m with total_time := m.total_time + dt, total_distance := a.total_range }
    let m := record_profile_data m a
    if seg.completed then
      let m := { m with current_segment_index := m.current_segment_index + 1 }
      if m.segments.length ≤ m.current_segment_index then
        ({ m with mission_complete := true },
         { a with mission_data.phase := "COMPLETE" })
      else (m, a)
    else (m, a)

/-- `MissionProfile.reset`: per-segment dynamic fields are cleared. -/
def resetSegment (seg : MissionSegment) : MissionSegment :=
  { seg with completed := false, progress := 0, turn_time := none }

/-- `MissionProfile.reset`. -/
def reset (m : Mission) : Mission :=
  { m with
    current_segment_index := 0
    mission_complete := false
    total_fuel_consumed := 0
    total_distance := 0
    total_time := 0
    segments := m.segments.map resetSegment
    profile_data := initProfileData }

end Mission

/-! ## World geometry queries and simulation driver (`world.py`, `main.py`)

The world's geometry is generated randomly at startup; it is modelled here
as a parameter: a terrain-height function together with the list of
generated buildings.  Rendering, camera and cloud animation are pure
presentation and do not feed back into the core state. -/

/-- `Building` (only the fields read by the collision query). -/
structure Building where
  position : Vec3
  width : ℝ
  height : ℝ
  depth : ℝ

/-- The queryable world geometry. -/
structure World where
  terrain_height : ℝ → ℝ → ℝ
  buildings : List Building

/-- `World.check_building_collision`: nearest distance from a point to the
building's axis-aligned bounding box. -/
def check_building_collision (aircraft_pos : Vec3) (b : Building) : ℝ :=
  let min_x := b.position.x - b.width / 2
  let max_x := b.position.x + b.width / 2
  let min_z := b.position.z - b.depth / 2
  let max_z := b.position.z + b.depth / 2
  let min_y : ℝ := 0
  let max_y := b.height
  let dx := max (max (min_x - aircraft_pos.x) 0) (aircraft_pos.x - max_x)
  let dy := max (max (min_y - aircraft_pos.y) 0) (aircraft_pos.y - max_y)
  let dz := max (max (min_z - aircraft_pos.z) 0) (aircraft_pos.z - max_z)
  Real.sqrt (dx * dx + dy * dy + dz * dz)

/-- The building-distance minimum of `check_collisions`, seeded with
`float('inf')` (modelled as `⊤ : EReal`). -/
def min_building_distance (w : World) (pos : Vec3) : EReal :=
  w.buildings.foldl (fun acc b => min acc ((check_building_collision pos b : ℝ) : EReal)) ⊤

/-- Driver state of `FlightSimulator` (core fields only; display and camera
are excluded presentation state). -/
structure SimState where
  aircraft : Aircraft
  mission : Mission
  paused : Bool
  crashed : Bool
  warning_timer : ℝ
  collision_warning : Bool

/-- `FlightSimulator.__init__` core state. -/
def initSim : SimState :=
  { aircraft := initAircraft, mission := initMission, paused := false,
    crashed := false, warning_timer := 0, collision_warning := false }

/-- The threshold banding of `check_collisions`, as a function of the
computed terrain clearance `altitude_agl` and building-distance minimum. -/
def collision_policy (dt altitude_agl : ℝ) (min_building_dist : EReal)
    (s : SimState) : SimState :=
  if altitude_agl < 30 ∨ min_building_dist < ((30 : ℝ) : EReal) then
    let s := { s with collision_warning := true, warning_timer := s.warning_timer + dt }
    if altitude_agl ≤ 5 ∨ min_building_dist ≤ ((10 : ℝ) : EReal) then
      { s with crashed := true, aircraft.velocity := Vec3.zero }
    else s
  else if altitude_agl < 100 ∨ min_building_dist < ((100 : ℝ) : EReal) then
    { s with collision_warning := true, warning_timer := s.warning_timer + dt }
  else
    { s with collision_warning := false, warning_timer := 0 }

/-- `FlightSimulator.check_collisions`. -/
def check_collisions (w : World) (s : SimState) (dt : ℝ) : SimState :=
  let terrain_height := w.terrain_height s.aircraft.position.x s.aircraft.position.z
  let altitude_agl := s.aircraft.position.y - terrain_height
  collision_policy dt altitude_agl (min_building_distance w s.aircraft.position) s

/-- `FlightSimulator.update`: one driver tick (cloud animation and the
camera are presentation-only and excluded). -/
def simUpdate (w : World) (s : SimState) (dt : ℝ) (k : Keys) : SimState :=
  if s.paused = true ∨ s.crashed = true then s
  else
    let a := s.aircraft.update dt k
    let ma := s.mission.update a dt
    check_collisions w { s with aircraft := ma.2, mission := ma.1 } dt

/-- A sequence of driver ticks. -/
def simTicks (w : World) (s : SimState) (steps : List (ℝ × Keys)) : SimState :=
  steps.foldl (fun s p => simUpdate w s p.1 p.2) s

/-- `FlightSimulator.reset_simulation`. -/
def simReset (s : SimState) : SimState :=
  { s with
    aircraft := s.aircraft.reset
    mission := s.mission.reset
    crashed := false
    warning_timer := 0
    collision_warning := false }

/-- A sequence of `Aircraft.update` calls. -/
def aircraftRun (a : Aircraft) (steps : List (ℝ × Keys)) : Aircraft :=
  steps.foldl (fun a p => a.update p.1 p.2) a

/-- A sequence of `MissionProfile.update` calls, each against an arbitrary
aircraft state. -/
def missionRun (m : Mission) (steps : List (Aircraft × ℝ)) : Mission :=
  steps.foldl (fun m p => (m.update p.1 p.2).1) m

/-! ## Auxiliary definitions used to state and settle the claims -/

/-- The altitude factor computed inline by `Aircraft.get_thrust`. -/
def altitude_factor (y : ℝ) : ℝ := if y < 20000 then 1.0 - y / 20000 else 0.5

/-- The speed factor computed inline by `Aircraft.get_thrust`. -/
def speed_factor (v : ℝ) : ℝ := if v < 1000 then 1.0 - v / 1000 else 0.0

/-- A world with flat zero terrain and no buildings. -/
def emptyWorld : World := { terrain_height := fun _ _ => 0, buildings := [] }

/-- Aircraft flying level at 15000 m at full throttle with zero velocity. -/
def c6Aircraft : Aircraft :=
  { initAircraft with position := ⟨0, 15000, 0⟩, velocity := Vec3.zero, throttle := 1 }

/-- A driver state in the crashed condition (as left by a crash tick). -/
def crashedSim : SimState := { initSim with crashed := true }

/-- A crashed driver state with the collision warning active and a
previously accumulated warning timer. -/
def c8Sim : SimState :=
  { initSim with crashed := true, collision_warning := true, warning_timer := 5 }

/-- The `completed` flag of segment `i`. -/
def Mission.segCompleted (m : Mission) (i : ℕ) : Bool :=
  (m.segments.getD i dummySegment).completed

/-- The fixed mission order. -/
def missionOrder : List SegName := [.WUTO, .CLIMB, .CRUISE, .TURN, .DESCENT, .LANDING]

/-- The per-segment data that is fixed at mission construction. -/
def segStatic (seg : MissionSegment) : SegName × ℝ × ℝ × Option ℝ × Option ℝ :=
  (seg.name, seg.target_altitude, seg.target_speed, seg.duration, seg.distance)

/-- The WUTO segment's `progress` field. -/
def Mission.wutoProgress (m : Mission) : ℝ := (m.segments.getD 0 dummySegment).progress

/-- The aircraft data fixed at construction. -/
def aircraftConfig (a : Aircraft) : ℝ × ℝ × ℝ × ℝ × ℝ :=
  (a.mass, a.wing_area, a.max_thrust, a.fuel_capacity, a.fuel_flow_rate)

/-- A freshly reset segment built from static data. -/
def segOfStatic (t : SegName × ℝ × ℝ × Option ℝ × Option ℝ) : MissionSegment :=
  { name := t.1, target_altitude := t.2.1, target_speed := t.2.2.1,
    duration := t.2.2.2.1, distance := t.2.2.2.2,
    completed := false, progress := 0, turn_time := none }

/-- Invariant carried through driver ticks: the construction-time data of
aircraft and mission is the default one, the display flag is untouched and
the simulation is not paused. -/
def SInv (s : SimState) : Prop :=
  aircraftConfig s.aircraft = aircraftConfig initAircraft ∧
  s.mission.segments.map segStatic = defaultSegments.map segStatic ∧
  s.mission.display_enabled = true ∧
  s.paused = false

/-- Invariant carried through `Aircraft.update` runs: fuel and throttle are
nonnegative and so is the configured fuel-flow rate. -/
def FuelInv (a : Aircraft) : Prop :=
  0 ≤ a.fuel_mass ∧ 0 ≤ a.throttle ∧ 0 ≤ a.fuel_flow_rate

/-- An aircraft that has just exhausted its fuel. -/
def aZeroFuel : Aircraft := { initAircraft with fuel_mass := 0 }

/-- Invariant carried through `MissionProfile.update` runs: the per-segment
static data is the default one, the cursor is within bounds, every segment
strictly before the cursor is completed, and no segment strictly after the
cursor is completed. -/
def MInv (m : Mission) : Prop :=
  m.segments.map segStatic = defaultSegments.map segStatic ∧
  m.current_segment_index ≤ m.segments.length ∧
  (∀ i, i < m.current_segment_index → m.segCompleted i = true) ∧
  (∀ i, m.segCompleted i = true → i ≤ m.current_segment_index)

/-! ## Theorems -/

/-! Basic facts about `Vec3` lengths. -/

lemma Vec3.len_nonneg (v : Vec3) : 0 ≤ v.len := Real.sqrt_nonneg _

lemma Vec3.len_smul (v : Vec3) (c : ℝ) : (v.smul c).len = |c| * v.len := by
  unfold Vec3.len Vec3.smul
  dsimp only
  rw [show (v.x * c) ^ 2 + (v.y * c) ^ 2 + (v.z * c) ^ 2
      = c ^ 2 * (v.x ^ 2 + v.y ^ 2 + v.z ^ 2) by ring]
  rw [Real.sqrt_mul (sq_nonneg c), Real.sqrt_sq_eq_abs]

lemma Vec3.normalize_eq_smul (v : Vec3) : v.normalize = v.smul v.len⁻¹ := by
  unfold Vec3.normalize Vec3.smul
  simp [div_eq_mul_inv]

/-- The speed renormalization of `update_physics` caps the length at
`max_speed`. -/
lemma clamp_velocity_le (v1 : Vec3) :
    (if v1.len > max_speed then v1.normalize.smul max_speed else v1).len ≤ max_speed := by
  split_ifs with h
  · rw [Vec3.normalize_eq_smul]
    have hpos : (0 : ℝ) < v1.len := lt_trans (by norm_num [max_speed]) h
    have heq : (v1.smul v1.len⁻¹).smul max_speed = v1.smul (v1.len⁻¹ * max_speed) := by
      unfold Vec3.smul; dsimp only
      congr 1 <;> ring
    rw [heq, Vec3.len_smul]
    rw [abs_of_nonneg (mul_nonneg (inv_nonneg.mpr (Vec3.len_nonneg v1))
      (by norm_num [max_speed]))]
    rw [show v1.len⁻¹ * max_speed * v1.len = max_speed * (v1.len⁻¹ * v1.len) by ring]
    rw [inv_mul_cancel₀ (ne_of_gt hpos)]
    norm_num
  · exact le_of_not_lt h

/-- Zeroing the vertical component cannot increase a vector's length. -/
lemma len_zeroY_le (v : Vec3) : (Vec3.len ⟨v.x, 0, v.z⟩) ≤ v.len := by
  unfold Vec3.len
  apply Real.sqrt_le_sqrt
  dsimp only
  nlinarith [sq_nonneg v.y]

/-- The clamping stage of `update_physics` establishes the altitude and
speed bounds for any inputs. -/
lemma update_physics_bounds (a : Aircraft) (dt : ℝ) :
    10 ≤ (a.update_physics dt).position.y ∧
    (a.update_physics dt).position.y ≤ service_ceiling ∧
    (a.update_physics dt).velocity.len ≤ max_speed := by
  unfold Aircraft.update_physics
  dsimp only
  set v1 := (a.velocity.add _) with hv1
  set v2 := if v1.len > max_speed then v1.normalize.smul max_speed else v1 with hv2
  have hv2le : v2.len ≤ max_speed := clamp_velocity_le v1
  set pos := a.position.add (v2.smul dt) with hpos
  set pv : Vec3 × Vec3 := if pos.y < 10 then
      ((⟨pos.x, 10, pos.z⟩ : Vec3), if v2.y < 0 then (⟨v2.x, 0, v2.z⟩ : Vec3) else v2)
    else (pos, v2) with hpv
  have h1 : 10 ≤ pv.1.y := by
    rw [hpv]; split_ifs with h h'
    · norm_num
    · norm_num
    · exact le_of_not_lt h
  have h2 : pv.2.len ≤ max_speed := by
    rw [hpv]; split_ifs with h h'
    · exact le_trans (len_zeroY_le v2) hv2le
    · exact hv2le
    · exact hv2le
  refine ⟨?_, ?_, ?_⟩
  · split_ifs with h
    · show (10 : ℝ) ≤ service_ceiling
      norm_num [service_ceiling]
    · exact h1
  · split_ifs with h
    · exact le_refl _
    · exact le_of_not_lt h
  · exact h2

/-! Field-preservation facts about the stages of `Aircraft.update`. -/

lemma update_fuel_position (a : Aircraft) (dt : ℝ) :
    (a.update_fuel dt).position = a.position := rfl

lemma update_fuel_velocity (a : Aircraft) (dt : ℝ) :
    (a.update_fuel dt).velocity = a.velocity := rfl

lemma update_mission_data_position (a : Aircraft) (dt : ℝ) :
    (a.update_mission_data dt).position = a.position := by
  simp [Aircraft.update_mission_data, apply_ite Aircraft.position]

lemma update_mission_data_velocity (a : Aircraft) (dt : ℝ) :
    (a.update_mission_data dt).velocity = a.velocity := by
  simp [Aircraft.update_mission_data, apply_ite Aircraft.velocity]

/-- C1: after `Aircraft.update` (whose physics integration ends with the
altitude and speed clamps), the altitude satisfies
`10 ≤ y ≤ service_ceiling` and the speed satisfies `|velocity| ≤ max_speed`,
for any prior state, control inputs and `dt ≥ 0`. -/
theorem post_update_altitude_speed_clamped (a : Aircraft) (dt : ℝ) (k : Keys)
    (_hdt : 0 ≤ dt) :
    10 ≤ (a.update dt k).position.y ∧
    (a.update dt k).position.y ≤ service_ceiling ∧
    (a.update dt k).velocity.len ≤ max_speed := by
  have hupd : a.update dt k =
      ((((if a.fuel_mass ≤ 0 then { a with throttle := 0 } else a).apply_controls dt
        k).update_physics dt).update_fuel dt).update_mission_data dt := rfl
  rw [hupd, update_mission_data_position, update_mission_data_velocity,
    update_fuel_position, update_fuel_velocity]
  exact update_physics_bounds _ dt

/-- Witness for C1's theorem at the initial state with `dt = 0`. -/
theorem post_update_altitude_speed_clamped_witness :
    (0 : ℝ) ≤ 0 ∧
    (10 ≤ (initAircraft.update 0 noKeys).position.y ∧
     (initAircraft.update 0 noKeys).position.y ≤ service_ceiling ∧
     (initAircraft.update 0 noKeys).velocity.len ≤ max_speed) :=
  ⟨le_refl 0, post_update_altitude_speed_clamped initAircraft 0 noKeys (le_refl 0)⟩

lemma apply_controls_fuel_mass (a : Aircraft) (dt : ℝ) (k : Keys) :
    (a.apply_controls dt k).fuel_mass = a.fuel_mass := by
  simp [Aircraft.apply_controls, apply_ite Aircraft.fuel_mass]

lemma apply_controls_fuel_flow_rate (a : Aircraft) (dt : ℝ) (k : Keys) :
    (a.apply_controls dt k).fuel_flow_rate = a.fuel_flow_rate := by
  simp [Aircraft.apply_controls, apply_ite Aircraft.fuel_flow_rate]

lemma apply_controls_throttle_nonneg (a : Aircraft) (dt : ℝ) (k : Keys)
    (h : 0 ≤ a.throttle) (hdt : 0 ≤ dt) : 0 ≤ (a.apply_controls dt k).throttle := by
  simp only [Aircraft.apply_controls, apply_ite Aircraft.throttle, ite_self]
  split_ifs
  · exact le_max_of_le_left (by norm_num)
  · exact le_max_of_le_left (by norm_num)
  · exact le_min (by norm_num) (by linarith)
  · exact h

lemma update_physics_fuel_mass (a : Aircraft) (dt : ℝ) :
    (a.update_physics dt).fuel_mass = a.fuel_mass := rfl

lemma update_physics_throttle (a : Aircraft) (dt : ℝ) :
    (a.update_physics dt).throttle = a.throttle := rfl

lemma update_physics_fuel_flow_rate (a : Aircraft) (dt : ℝ) :
    (a.update_physics dt).fuel_flow_rate = a.fuel_flow_rate := rfl

lemma update_fuel_throttle (a : Aircraft) (dt : ℝ) :
    (a.update_fuel dt).throttle = a.throttle := rfl

lemma update_fuel_fuel_flow_rate (a : Aircraft) (dt : ℝ) :
    (a.update_fuel dt).fuel_flow_rate = a.fuel_flow_rate := rfl

lemma update_mission_data_fuel_mass (a : Aircraft) (dt : ℝ) :
    (a.update_mission_data dt).fuel_mass = a.fuel_mass := by
  simp [Aircraft.update_mission_data, apply_ite Aircraft.fuel_mass]

lemma update_mission_data_throttle (a : Aircraft) (dt : ℝ) :
    (a.update_mission_data dt).throttle = a.throttle := by
  simp [Aircraft.update_mission_data, apply_ite Aircraft.throttle]

lemma update_mission_data_fuel_flow_rate (a : Aircraft) (dt : ℝ) :
    (a.update_mission_data dt).fuel_flow_rate = a.fuel_flow_rate := by
  simp [Aircraft.update_mission_data, apply_ite Aircraft.fuel_flow_rate]

lemma update_fuel_bounds (a : Aircraft) (dt : ℝ) (hf : 0 ≤ a.fuel_mass)
    (ht : 0 ≤ a.throttle) (hr : 0 ≤ a.fuel_flow_rate) (hdt : 0 ≤ dt) :
    0 ≤ (a.update_fuel dt).fuel_mass ∧ (a.update_fuel dt).fuel_mass ≤ a.fuel_mass := by
  have heff : (0 : ℝ) ≤
      (if a.position.y < 15000 then 1.0 - a.position.y / 30000 else 0.5) := by
    split_ifs with h
    · nlinarith
    · norm_num
  have hcons : 0 ≤ a.fuel_flow_rate * a.throttle * dt *
      (if a.position.y < 15000 then 1.0 - a.position.y / 30000 else 0.5) := by
    have hbase : 0 ≤ a.fuel_flow_rate * a.throttle * dt := by positivity
    exact mul_nonneg hbase heff
  constructor
  · exact le_max_left 0 _
  · show max 0 _ ≤ _
    exact max_le hf (by linarith)

/-- One `Aircraft.update` step keeps `FuelInv` and cannot increase the fuel. -/
lemma update_step_fuel (a : Aircraft) (dt : ℝ) (k : Keys)
    (h : FuelInv a) (hdt : 0 ≤ dt) :
    FuelInv (a.update dt k) ∧ (a.update dt k).fuel_mass ≤ a.fuel_mass := by
  obtain ⟨hf, ht, hr⟩ := h
  have hupd : a.update dt k =
      ((((if a.fuel_mass ≤ 0 then { a with throttle := 0 } else a).apply_controls dt
        k).update_physics dt).update_fuel dt).update_mission_data dt := rfl
  set a0 := if a.fuel_mass ≤ 0 then { a with throttle := 0 } else a with ha0
  have hf0 : a0.fuel_mass = a.fuel_mass := by rw [ha0]; split <;> rfl
  have ht0 : 0 ≤ a0.throttle := by
    rw [ha0]; split
    · exact le_refl 0
    · exact ht
  have hr0 : a0.fuel_flow_rate = a.fuel_flow_rate := by rw [ha0]; split <;> rfl
  set a1 := a0.apply_controls dt k with ha1
  have hf1 : a1.fuel_mass = a.fuel_mass := by
    rw [ha1, apply_controls_fuel_mass, hf0]
  have ht1 : 0 ≤ a1.throttle := apply_controls_throttle_nonneg a0 dt k ht0 hdt
  have hr1 : a1.fuel_flow_rate = a.fuel_flow_rate := by
    rw [ha1, apply_controls_fuel_flow_rate, hr0]
  set a2 := a1.update_physics dt with ha2
  have hf2 : a2.fuel_mass = a.fuel_mass := by rw [ha2, update_physics_fuel_mass, hf1]
  have ht2 : 0 ≤ a2.throttle := by rw [ha2, update_physics_throttle]; exact ht1
  have hr2 : a2.fuel_flow_rate = a.fuel_flow_rate := by
    rw [ha2, update_physics_fuel_flow_rate, hr1]
  set a3 := a2.update_fuel dt with ha3
  have hbounds := update_fuel_bounds a2 dt (hf2 ▸ hf) ht2 (hr2 ▸ hr) hdt
  have ht3 : 0 ≤ a3.throttle := by rw [ha3, update_fuel_throttle]; exact ht2
  have hr3 : a3.fuel_flow_rate = a.fuel_flow_rate := by
    rw [ha3, update_fuel_fuel_flow_rate, hr2]
  have hgoal : a.update dt k = a3.update_mission_data dt := hupd
  rw [hgoal]
  refine ⟨⟨?_, ?_, ?_⟩, ?_⟩
  · rw [update_mission_data_fuel_mass]; exact hbounds.1
  · rw [update_mission_data_throttle]; exact ht3
  · rw [update_mission_data_fuel_flow_rate, hr3]; exact hr
  · rw [update_mission_data_fuel_mass]
    exact le_trans hbounds.2 (le_of_eq hf2)

/-- `FuelInv` and fuel-non-increase lift to whole runs. -/
lemma aircraftRun_fuel (steps : List (ℝ × Keys)) :
    ∀ a : Aircraft, FuelInv a → (∀ p ∈ steps, 0 ≤ p.1) →
    FuelInv (aircraftRun a steps) ∧ (aircraftRun a steps).fuel_mass ≤ a.fuel_mass := by
  induction steps with
  | nil => exact fun a h _ => ⟨h, le_refl _⟩
  | cons p ps ih =>
      intro a h hs
      have hstep := update_step_fuel a p.1 p.2 h (hs p (List.mem_cons_self p ps))
      have hrest := ih (a.update p.1 p.2) hstep.1
        (fun q hq => hs q (List.mem_cons_of_mem p hq))
      refine ⟨hrest.1, le_trans hrest.2 hstep.2⟩

/-- C4: across every sequence of `Aircraft.update` calls with nonnegative
time steps starting from the initial aircraft state (no reset), the fuel
mass stays nonnegative and is monotonically non-increasing along the run. -/
theorem fuel_monotone_nonneg (steps extra : List (ℝ × Keys))
    (h1 : ∀ p ∈ steps, 0 ≤ p.1) (h2 : ∀ p ∈ extra, 0 ≤ p.1) :
    0 ≤ (aircraftRun initAircraft (steps ++ extra)).fuel_mass ∧
    (aircraftRun initAircraft (steps ++ extra)).fuel_mass ≤
      (aircraftRun initAircraft steps).fuel_mass := by
  have hinit : FuelInv initAircraft := by
    refine ⟨?_, ?_, ?_⟩ <;> norm_num [initAircraft]
  have happ : aircraftRun initAircraft (steps ++ extra) =
      aircraftRun (aircraftRun initAircraft steps) extra := by
    simp [aircraftRun, List.foldl_append]
  have hpre := aircraftRun_fuel steps initAircraft hinit h1
  have hpost := aircraftRun_fuel extra (aircraftRun initAircraft steps) hpre.1 h2
  rw [happ]
  exact ⟨hpost.1.1, hpost.2⟩

/-- Witness for C4's theorem on a concrete two-tick run. -/
theorem fuel_monotone_nonneg_witness :
    0 ≤ (aircraftRun initAircraft ([(1, noKeys)] ++ [(2, noKeys)])).fuel_mass ∧
    (aircraftRun initAircraft ([(1, noKeys)] ++ [(2, noKeys)])).fuel_mass ≤
      (aircraftRun initAircraft [(1, noKeys)]).fuel_mass := by
  refine fuel_monotone_nonneg [(1, noKeys)] [(2, noKeys)] ?_ ?_ <;>
    intro p hp <;> simp_all

/-- C6 (amended): per tick, thrust equals
`max_thrust * throttle * altitude_factor * speed_factor`, where the altitude
factor is `1 - altitude/20000` on the branch `altitude < 20000` (with no 0.5
floor on that branch) and `0.5` for altitudes of 20000 m and above, and the
speed factor is `1 - |velocity|/1000` below 1000 m/s and `0` at or beyond
1000 m/s. -/
theorem get_thrust_formula (a : Aircraft) :
    a.get_thrust =
      a.max_thrust * a.throttle * altitude_factor a.position.y *
        speed_factor a.velocity.len
    ∧ (∀ y : ℝ, y < 20000 → altitude_factor y = 1 - y / 20000)
    ∧ (∀ y : ℝ, 20000 ≤ y → altitude_factor y = 0.5)
    ∧ (∀ v : ℝ, v < 1000 → speed_factor v = 1 - v / 1000)
    ∧ (∀ v : ℝ, 1000 ≤ v → speed_factor v = 0) := by
  refine ⟨rfl, ?_, ?_, ?_, ?_⟩
  · intro y hy
    rw [altitude_factor, if_pos hy]
    norm_num
  · intro y hy
    rw [altitude_factor, if_neg (not_lt.mpr hy)]
  · intro v hv
    rw [speed_factor, if_pos hv]
    norm_num
  · intro v hv
    rw [speed_factor, if_neg (not_lt.mpr hv)]
    norm_num

/-- Witness for C6's theorem at the initial aircraft state (altitude 500,
speed below 1000). -/
theorem get_thrust_formula_witness :
    initAircraft.get_thrust =
      initAircraft.max_thrust * initAircraft.throttle *
        altitude_factor initAircraft.position.y * speed_factor initAircraft.velocity.len
    ∧ altitude_factor 500 = 1 - 500 / 20000 := by
  refine ⟨(get_thrust_formula initAircraft).1, ?_⟩
  exact (get_thrust_formula initAircraft).2.1 500 (by norm_num)

/-- C6 counterexample: at altitude 15000 m (zero velocity, full throttle,
default aircraft data) the altitude factor computed by `get_thrust` is
`1/4 < 0.5`, so the thrust is 50000 N and not the 100000 N mandated by a
factor floored at 0.5 — the factor does go below 0.5. -/
theorem get_thrust_no_half_floor :
    Aircraft.get_thrust c6Aircraft = 50000
    ∧ altitude_factor c6Aircraft.position.y = 1 / 4
    ∧ ¬(0.5 ≤ altitude_factor c6Aircraft.position.y)
    ∧ Aircraft.get_thrust c6Aircraft ≠
        c6Aircraft.max_thrust * c6Aircraft.throttle *
          max 0.5 (1 - c6Aircraft.position.y / 20000) *
          speed_factor c6Aircraft.velocity.len := by
  have hlen : c6Aircraft.velocity.len = 0 := by
    simp [c6Aircraft, Vec3.zero, Vec3.len]
  have hy : c6Aircraft.position.y = 15000 := rfl
  have hthrust : Aircraft.get_thrust c6Aircraft = 50000 := by
    rw [Aircraft.get_thrust, hlen, hy]
    have h1 : (15000 : ℝ) < 20000 := by norm_num
    have h2 : (0 : ℝ) < 1000 := by norm_num
    rw [if_pos h1, if_pos h2]
    show (200000 : ℝ) * 1 * (1.0 - 15000 / 20000) * (1.0 - 0 / 1000) = 50000
    norm_num
  have haf : altitude_factor c6Aircraft.position.y = 1 / 4 := by
    rw [hy, altitude_factor, if_pos (by norm_num : (15000 : ℝ) < 20000)]
    norm_num
  refine ⟨hthrust, haf, ?_, ?_⟩
  · rw [haf]; norm_num
  · rw [hthrust, hlen, hy, speed_factor, if_pos (by norm_num : (0 : ℝ) < 1000)]
    show (50000 : ℝ) ≠ 200000 * 1 * max 0.5 (1 - 15000 / 20000) * (1.0 - 0 / 1000)
    rw [show max (0.5 : ℝ) (1 - 15000 / 20000) = 0.5 by
      rw [max_eq_left]; norm_num]
    norm_num

/-- C2: the two-threshold banding of the per-tick collision evaluation:
below the 30 m critical threshold (terrain clearance or building distance)
the warning is raised, and additionally clearance ≤ 5 m or building
distance ≤ 10 m crashes the aircraft and zeroes its velocity; at clearance
exactly 50 m with no buildings the result is warning without crash, and at
clearance 3 m the aircraft crashes with velocity (0,0,0). -/
theorem collision_two_threshold_banding (dt agl : ℝ) (bd : EReal) (s : SimState) :
    ((agl < 30 ∨ bd < ((30 : ℝ) : EReal)) →
      (collision_policy dt agl bd s).collision_warning = true)
    ∧ ((agl ≤ 5 ∨ bd ≤ ((10 : ℝ) : EReal)) →
      (collision_policy dt agl bd s).crashed = true ∧
      (collision_policy dt agl bd s).aircraft.velocity = Vec3.zero)
    ∧ (agl = 50 → bd = ⊤ → s.crashed = false →
      (collision_policy dt agl bd s).collision_warning = true ∧
      (collision_policy dt agl bd s).crashed = false)
    ∧ (agl = 3 →
      (collision_policy dt agl bd s).crashed = true ∧
      (collision_policy dt agl bd s).aircraft.velocity = Vec3.zero) := by
  have hcrash : (agl ≤ 5 ∨ bd ≤ ((10 : ℝ) : EReal)) →
      (collision_policy dt agl bd s).crashed = true ∧
      (collision_policy dt agl bd s).aircraft.velocity = Vec3.zero := by
    intro h
    have houter : agl < 30 ∨ bd < ((30 : ℝ) : EReal) := by
      rcases h with h | h
      · exact Or.inl (lt_of_le_of_lt h (by norm_num))
      · refine Or.inr (lt_of_le_of_lt h ?_)
        exact_mod_cast (by norm_num : (10 : ℝ) < 30)
    simp only [collision_policy, if_pos houter, if_pos h]
    exact ⟨trivial, trivial⟩
  refine ⟨?_, hcrash, ?_, ?_⟩
  · intro h
    simp only [collision_policy, if_pos h]
    split
    · rfl
    · rfl
  · intro h50 htop hcr
    subst h50; subst htop
    have h1 : ¬((50 : ℝ) < 30 ∨ (⊤ : EReal) < ((30 : ℝ) : EReal)) := by
      push_neg
      exact ⟨by norm_num, le_top⟩
    have h2 : (50 : ℝ) < 100 ∨ (⊤ : EReal) < ((100 : ℝ) : EReal) :=
      Or.inl (by norm_num)
    simp only [collision_policy, if_neg h1, if_pos h2]
    exact ⟨trivial, hcr⟩
  · intro h3
    subst h3
    exact hcrash (Or.inl (by norm_num))

/-- Witness for C2's theorem: at clearance 3 m the initial driver state
crashes with velocity zeroed. -/
theorem collision_two_threshold_banding_witness :
    (collision_policy 1 3 ⊤ initSim).crashed = true ∧
    (collision_policy 1 3 ⊤ initSim).aircraft.velocity = Vec3.zero :=
  (collision_two_threshold_banding 1 3 ⊤ initSim).2.2.2 rfl

/-- C3: once `crashed` is true, every driver tick leaves the whole state
unchanged (hence `crashed` stays true), and the explicit reset is the
operation that sets it back to false. -/
theorem crashed_terminal_until_reset (w : World) (s : SimState)
    (steps : List (ℝ × Keys)) (h : s.crashed = true) :
    simTicks w s steps = s ∧ (simReset s).crashed = false := by
  constructor
  · induction steps with
    | nil => rfl
    | cons p ps ih =>
        have hstep : simUpdate w s p.1 p.2 = s := by
          rw [simUpdate, if_pos (Or.inr h)]
        rw [simTicks, List.foldl_cons, hstep]
        exact ih
  · rfl

/-- Witness for C3's theorem at a concrete crashed state. -/
theorem crashed_terminal_until_reset_witness :
    simTicks emptyWorld crashedSim [(1, noKeys)] = crashedSim ∧
    (simReset crashedSim).crashed = false :=
  crashed_terminal_until_reset emptyWorld crashedSim [(1, noKeys)] rfl

/-- C8 (amended): on every tick on which the simulation is live (not paused
and not crashed at tick entry), the post-tick warning timer is zero whenever
`collision_warning` is false, and equals the previous timer plus `dt`
whenever `collision_warning` is true.  (On paused or crashed ticks the
driver returns early and the timer freezes.) -/
theorem warning_timer_live_tick (w : World) (s : SimState) (dt : ℝ) (k : Keys)
    (hp : s.paused = false) (hc : s.crashed = false) :
    ((simUpdate w s dt k).collision_warning = false →
      (simUpdate w s dt k).warning_timer = 0)
    ∧ ((simUpdate w s dt k).collision_warning = true →
      (simUpdate w s dt k).warning_timer = s.warning_timer + dt) := by
  have hcond : ¬(s.paused = true ∨ s.crashed = true) := by
    simp [hp, hc]
  rw [simUpdate, if_neg hcond]
  show ((check_collisions w _ dt).collision_warning = false → _) ∧ _
  rw [check_collisions]
  unfold collision_policy
  split_ifs <;> simp

/-- Witness for C8's amended theorem at the initial state with a flat
terrain far below: the tick clears the warning and keeps the timer at 0. -/
theorem warning_timer_live_tick_witness :
    ((simUpdate emptyWorld initSim 0 noKeys).collision_warning = false →
      (simUpdate emptyWorld initSim 0 noKeys).warning_timer = 0)
    ∧ ((simUpdate emptyWorld initSim 0 noKeys).collision_warning = true →
      (simUpdate emptyWorld initSim 0 noKeys).warning_timer = initSim.warning_timer + 0) :=
  warning_timer_live_tick emptyWorld initSim 0 noKeys rfl rfl

/-- C8 counterexample: a crashed driver state with the warning active keeps
its timer frozen across a tick of `dt = 1`, so the timer does not increase
by `dt` on every tick on which the warning is true. -/
theorem warning_timer_frozen_on_crashed_tick :
    (simUpdate emptyWorld c8Sim 1 noKeys).collision_warning = true ∧
    (simUpdate emptyWorld c8Sim 1 noKeys).warning_timer ≠ c8Sim.warning_timer + 1 := by
  have h : simUpdate emptyWorld c8Sim 1 noKeys = c8Sim := by
    have hcond : c8Sim.paused = true ∨ c8Sim.crashed = true := Or.inr rfl
    rw [simUpdate, if_pos hcond]
  rw [h]
  refine ⟨rfl, ?_⟩
  show (5 : ℝ) ≠ 5 + 1
  norm_num

/-- C7: when `fuel_mass ≤ 0` at entry, `Aircraft.update` zeroes the
throttle before the tick's control handling and physics integration, and
the physics integration (and subsequent fuel/sampling stages) still runs
normally on that state — in particular the position and velocity are those
computed by `update_physics`; with no throttle keys pressed the state
entering the physics integration has throttle 0. -/
theorem fuel_exhaustion_zero_throttle (a : Aircraft) (dt : ℝ) (k : Keys)
    (h : a.fuel_mass ≤ 0) :
    a.update dt k =
      ((({ a with throttle := 0 }.apply_controls dt k).update_physics
        dt).update_fuel dt).update_mission_data dt
    ∧ (k.lshift = false → k.lctrl = false →
        ({ a with throttle := 0 }.apply_controls dt k).throttle = 0)
    ∧ (a.update dt k).position =
        (({ a with throttle := 0 }.apply_controls dt k).update_physics dt).position
    ∧ (a.update dt k).velocity =
        (({ a with throttle := 0 }.apply_controls dt k).update_physics dt).velocity := by
  have hu : a.update dt k =
      ((({ a with throttle := 0 }.apply_controls dt k).update_physics
        dt).update_fuel dt).update_mission_data dt := by
    unfold Aircraft.update
    rw [if_pos h]
  refine ⟨hu, ?_, ?_, ?_⟩
  · intro hshift hctrl
    simp [Aircraft.apply_controls, apply_ite Aircraft.throttle, hshift, hctrl]
  · rw [hu, update_mission_data_position, update_fuel_position]
  · rw [hu, update_mission_data_velocity, update_fuel_velocity]

/-- Witness for C7's theorem at a concrete fuel-exhausted aircraft. -/
theorem fuel_exhaustion_zero_throttle_witness :
    ({ aZeroFuel with throttle := 0 }.apply_controls 1 noKeys).throttle = 0 :=
  (fuel_exhaustion_zero_throttle aZeroFuel 1 noKeys (le_refl 0)).2.1 rfl rfl

/-! Facts about the mission segment executors: the static data is never
written and the `completed` flag is either raised or left unchanged. -/

lemma execute_wuto_static (seg : MissionSegment) (a : Aircraft) (dt : ℝ) :
    segStatic (Mission.execute_wuto seg a dt).1 = segStatic seg := by
  unfold Mission.execute_wuto
  try simp only
  try (split_ifs <;> simp [segStatic])
  try (split_ifs <;> simp [segStatic])

lemma execute_climb_static (seg : MissionSegment) (a : Aircraft) (dt : ℝ) :
    segStatic (Mission.execute_climb seg a dt).1 = segStatic seg := by
  unfold Mission.execute_climb
  try simp only
  try (split_ifs <;> simp [segStatic])
  try (split_ifs <;> simp [segStatic])

lemma execute_cruise_static (seg : MissionSegment) (a : Aircraft) (dt : ℝ) :
    segStatic (Mission.execute_cruise seg a dt).1 = segStatic seg := by
  unfold Mission.execute_cruise
  cases hd : seg.distance
  · simp [hd, segStatic]
  · simp only [hd]
    try simp only
    try (split_ifs <;> simp [segStatic, hd])
    try (split_ifs <;> simp [segStatic, hd])

lemma execute_turn_static (seg : MissionSegment) (a : Aircraft) (dt : ℝ) :
    segStatic (Mission.execute_turn seg a dt).1 = segStatic seg := by
  unfold Mission.execute_turn
  try simp only
  try (split_ifs <;> simp [segStatic])
  try (split_ifs <;> simp [segStatic])

lemma execute_descent_static (seg : MissionSegment) (a : Aircraft) (dt : ℝ) :
    segStatic (Mission.execute_descent seg a dt).1 = segStatic seg := by
  unfold Mission.execute_descent
  try simp only
  try (split_ifs <;> simp [segStatic])
  try (split_ifs <;> simp [segStatic])

lemma execute_landing_static (seg : MissionSegment) (a : Aircraft) (dt : ℝ) :
    segStatic (Mission.execute_landing seg a dt).1 = segStatic seg := by
  unfold Mission.execute_landing
  try simp only
  try (split_ifs <;> simp [segStatic])
  try (split_ifs <;> simp [segStatic])

lemma execute_segment_static (seg : MissionSegment) (a : Aircraft) (dt : ℝ) :
    segStatic (Mission.execute_segment seg a dt).1 = segStatic seg := by
  unfold Mission.execute_segment
  cases seg.name <;> dsimp only
  · exact execute_wuto_static _ _ _
  · exact execute_climb_static _ _ _
  · exact execute_cruise_static _ _ _
  · exact execute_turn_static _ _ _
  · exact execute_descent_static _ _ _
  · exact execute_landing_static _ _ _

lemma execute_wuto_completed (seg : MissionSegment) (a : Aircraft) (dt : ℝ) :
    (Mission.execute_wuto seg a dt).1.completed = true ∨
    (Mission.execute_wuto seg a dt).1.completed = seg.completed := by
  unfold Mission.execute_wuto
  try simp only
  try (split_ifs <;> simp)
  try (split_ifs <;> simp)

lemma execute_climb_completed (seg : MissionSegment) (a : Aircraft) (dt : ℝ) :
    (Mission.execute_climb seg a dt).1.completed = true ∨
    (Mission.execute_climb seg a dt).1.completed = seg.completed := by
  unfold Mission.execute_climb
  try simp only
  try (split_ifs <;> simp)
  try (split_ifs <;> simp)

lemma execute_cruise_completed (seg : MissionSegment) (a : Aircraft) (dt : ℝ) :
    (Mission.execute_cruise seg a dt).1.completed = true ∨
    (Mission.execute_cruise seg a dt).1.completed = seg.completed := by
  unfold Mission.execute_cruise
  cases hd : seg.distance
  · simp [hd]
  · simp only [hd]
    try simp only
    try (split_ifs <;> simp)
    try (split_ifs <;> simp)

lemma execute_turn_completed (seg : MissionSegment) (a : Aircraft) (dt : ℝ) :
    (Mission.execute_turn seg a dt).1.completed = true ∨
    (Mission.execute_turn seg a dt).1.completed = seg.completed := by
  unfold Mission.execute_turn
  try simp only
  try (split_ifs <;> simp)
  try (split_ifs <;> simp)

lemma execute_descent_completed (seg : MissionSegment) (a : Aircraft) (dt : ℝ) :
    (Mission.execute_descent seg a dt).1.completed = true ∨
    (Mission.execute_descent seg a dt).1.completed = seg.completed := by
  unfold Mission.execute_descent
  try simp only
  try (split_ifs <;> simp)
  try (split_ifs <;> simp)

lemma execute_landing_completed (seg : MissionSegment) (a : Aircraft) (dt : ℝ) :
    (Mission.execute_landing seg a dt).1.completed = true ∨
    (Mission.execute_landing seg a dt).1.completed = seg.completed := by
  unfold Mission.execute_landing
  try simp only
  try (split_ifs <;> simp)
  try (split_ifs <;> simp)

lemma execute_segment_completed (seg : MissionSegment) (a : Aircraft) (dt : ℝ) :
    (Mission.execute_segment seg a dt).1.completed = true ∨
    (Mission.execute_segment seg a dt).1.completed = seg.completed := by
  unfold Mission.execute_segment
  cases seg.name <;> dsimp only
  · exact execute_wuto_completed _ _ _
  · exact execute_climb_completed _ _ _
  · exact execute_cruise_completed _ _ _
  · exact execute_turn_completed _ _ _
  · exact execute_descent_completed _ _ _
  · exact execute_landing_completed _ _ _

lemma record_profile_data_segments (m : Mission) (a : Aircraft) :
    (Mission.record_profile_data m a).segments = m.segments := by
  unfold Mission.record_profile_data; split <;> rfl

lemma record_profile_data_index (m : Mission) (a : Aircraft) :
    (Mission.record_profile_data m a).current_segment_index = m.current_segment_index := by
  unfold Mission.record_profile_data; split <;> rfl

lemma record_profile_data_display (m : Mission) (a : Aircraft) :
    (Mission.record_profile_data m a).display_enabled = m.display_enabled := by
  unfold Mission.record_profile_data; split <;> rfl

/-- Case characterization of one `MissionProfile.update` step: either the
guard stops it, or the current segment is executed and written back and the
cursor advances exactly when the executed segment reports completion. -/
lemma mission_update_char (m : Mission) (a : Aircraft) (dt : ℝ) :
    ((m.mission_complete = true ∨ m.segments.length ≤ m.current_segment_index) ∧
      (m.update a dt).1 = m) ∨
    (¬(m.mission_complete = true ∨ m.segments.length ≤ m.current_segment_index) ∧
      (m.update a dt).1.segments =
        m.segments.set m.current_segment_index
          (Mission.execute_segment (m.segments.getD m.current_segment_index dummySegment)
            a dt).1 ∧
      (m.update a dt).1.current_segment_index =
        (if (Mission.execute_segment (m.segments.getD m.current_segment_index dummySegment)
            a dt).1.completed = true
          then m.current_segment_index + 1 else m.current_segment_index)) := by
  by_cases hg : m.mission_complete = true ∨ m.segments.length ≤ m.current_segment_index
  · left
    refine ⟨hg, ?_⟩
    unfold Mission.update
    rw [if_pos hg]
  · right
    refine ⟨hg, ?_, ?_⟩ <;> unfold Mission.update <;> rw [if_neg hg] <;> dsimp only
    · split_ifs <;> simp [record_profile_data_segments]
    · split_ifs <;> simp_all [record_profile_data_index]

lemma mission_update_display (m : Mission) (a : Aircraft) (dt : ℝ) :
    (m.update a dt).1.display_enabled = m.display_enabled := by
  unfold Mission.update
  try simp only
  split_ifs <;> simp [record_profile_data_display]

/-! List access helpers for the segment array. -/

lemma set_getD_self {α : Type} (l : List α) (i : ℕ) (d : α)
    (h : i < l.length) : l.set i (l.getD i d) = l := by
  apply List.ext_getElem?_iff.mpr
  intro n
  by_cases hn : i = n
  · subst hn
    rw [List.getElem?_set_self h, List.getD_eq_getElem?_getD,
      List.getElem?_eq_getElem h]
    rfl
  · rw [List.getElem?_set_ne hn]

lemma getD_set_ne {α : Type} (l : List α) (i j : ℕ) (v d : α) (hne : j ≠ i) :
    (l.set i v).getD j d = l.getD j d := by
  rw [List.getD_eq_getElem?_getD, List.getElem?_set_ne (fun h => hne h.symm),
    ← List.getD_eq_getElem?_getD]

lemma getD_set_eq {α : Type} (l : List α) (i : ℕ) (v d : α)
    (h : i < l.length) : (l.set i v).getD i d = v := by
  rw [List.getD_eq_getElem?_getD, List.getElem?_set_self h]
  rfl

/-- One mission tick preserves `MInv`, never moves the cursor backwards and
never lowers a `completed` flag. -/
lemma MInv_step (m : Mission) (a : Aircraft) (dt : ℝ) (h : MInv m) :
    MInv (m.update a dt).1 ∧
    m.current_segment_index ≤ (m.update a dt).1.current_segment_index ∧
    (∀ i, m.segCompleted i = true → (m.update a dt).1.segCompleted i = true) := by
  obtain ⟨hstat, hbound, hbelow, habove⟩ := h
  rcases mission_update_char m a dt with ⟨hg, heq⟩ | ⟨hg, hsegs, hidx⟩
  · rw [heq]
    exact ⟨⟨hstat, hbound, hbelow, habove⟩, le_refl _, fun i hi => hi⟩
  · push_neg at hg
    obtain ⟨hnc, hlt⟩ := hg
    have hstatic' :
        segStatic (Mission.execute_segment
          (m.segments.getD m.current_segment_index dummySegment) a dt).1 =
        segStatic (m.segments.getD m.current_segment_index dummySegment) :=
      execute_segment_static _ _ _
    have hcc := execute_segment_completed
      (m.segments.getD m.current_segment_index dummySegment) a dt
    have hstat' : (m.update a dt).1.segments.map segStatic =
        defaultSegments.map segStatic := by
      rw [hsegs, List.map_set, hstatic',
        ← List.getD_map m.segments dummySegment segStatic,
        set_getD_self _ _ _ (by rw [List.length_map]; exact hlt), hstat]
    have hlen : (m.update a dt).1.segments.length = m.segments.length := by
      rw [hsegs, List.length_set]
    have hgetne : ∀ j, j ≠ m.current_segment_index →
        (m.update a dt).1.segCompleted j = m.segCompleted j := by
      intro j hj
      unfold Mission.segCompleted
      rw [hsegs, getD_set_ne _ _ _ _ _ hj]
    have hgeteq : (m.update a dt).1.segCompleted m.current_segment_index =
        (Mission.execute_segment
          (m.segments.getD m.current_segment_index dummySegment) a dt).1.completed := by
      unfold Mission.segCompleted
      rw [hsegs, getD_set_eq _ _ _ _ hlt]
    by_cases hcomp : (Mission.execute_segment
        (m.segments.getD m.current_segment_index dummySegment) a dt).1.completed = true
    · have hidx' : (m.update a dt).1.current_segment_index =
          m.current_segment_index + 1 := by rw [hidx, if_pos hcomp]
      refine ⟨⟨hstat', ?_, ?_, ?_⟩, ?_, ?_⟩
      · rw [hidx', hlen]; omega
      · intro i hi
        rw [hidx'] at hi
        by_cases hie : i = m.current_segment_index
        · subst hie; rw [hgeteq]; exact hcomp
        · rw [hgetne i hie]; exact hbelow i (by omega)
      · intro i hi
        rw [hidx']
        by_cases hie : i = m.current_segment_index
        · omega
        · rw [hgetne i hie] at hi
          exact le_trans (habove i hi) (by omega)
      · rw [hidx']; omega
      · intro i hi
        by_cases hie : i = m.current_segment_index
        · subst hie; rw [hgeteq]; exact hcomp
        · rw [hgetne i hie]; exact hi
    · have hidx' : (m.update a dt).1.current_segment_index =
          m.current_segment_index := by rw [hidx, if_neg hcomp]
      refine ⟨⟨hstat', ?_, ?_, ?_⟩, ?_, ?_⟩
      · rw [hidx', hlen]; exact hbound
      · intro i hi
        rw [hidx'] at hi
        rw [hgetne i (by omega)]
        exact hbelow i hi
      · intro i hi
        rw [hidx']
        by_cases hie : i = m.current_segment_index
        · omega
        · rw [hgetne i hie] at hi
          exact habove i hi
      · rw [hidx']
      · intro i hi
        by_cases hie : i = m.current_segment_index
        · subst hie
          rw [hgeteq]
          rcases hcc with hc | hc
          · exact hc
          · rw [hc]; exact hi
        · rw [hgetne i hie]; exact hi

lemma default_segments_completed (i : ℕ) :
    (defaultSegments.getD i dummySegment).completed = false := by
  match i with
  | 0 => rfl
  | 1 => rfl
  | 2 => rfl
  | 3 => rfl
  | 4 => rfl
  | 5 => rfl
  | n + 6 => rfl

lemma MInv_init : MInv initMission := by
  refine ⟨rfl, by norm_num [initMission, defaultSegments], ?_, ?_⟩
  · intro i hi
    exact absurd hi (by norm_num [initMission])
  · intro i hi
    have hx : (defaultSegments.getD i dummySegment).completed = true := hi
    rw [default_segments_completed i] at hx
    exact absurd hx (by simp)

lemma missionRun_inv (steps : List (Aircraft × ℝ)) :
    ∀ m : Mission, MInv m →
    MInv (missionRun m steps) ∧
    m.current_segment_index ≤ (missionRun m steps).current_segment_index ∧
    (∀ i, m.segCompleted i = true → (missionRun m steps).segCompleted i = true) := by
  induction steps with
  | nil => exact fun m h => ⟨h, le_refl _, fun i hi => hi⟩
  | cons p ps ih =>
      intro m h
      have hstep := MInv_step m p.1 p.2 h
      have hrest := ih (m.update p.1 p.2).1 hstep.1
      exact ⟨hrest.1, le_trans hstep.2.1 hrest.2.1,
        fun i hi => hrest.2.2 i (hstep.2.2 i hi)⟩

lemma MInv_length (m : Mission) (h : MInv m) : m.segments.length = 6 := by
  have := congrArg List.length h.1
  simpa using this

lemma MInv_names (m : Mission) (h : MInv m) :
    m.segments.map (fun seg => seg.name) = missionOrder := by
  have h1 : (m.segments.map segStatic).map Prod.fst =
      (defaultSegments.map segStatic).map Prod.fst := by rw [h.1]
  rw [List.map_map, List.map_map] at h1
  exact h1

/-- C5: over any sequence of `MissionProfile.update` calls without reset,
the segment cursor is monotonically non-decreasing and never exceeds the
segment count 6, `completed` flags never revert (hence each transitions
false→true at most once), a completed segment implies all earlier segments
completed (transitions happen in segment order), and the segment order is
the fixed WUTO, CLIMB, CRUISE, TURN, DESCENT, LANDING. -/
theorem mission_cursor_monotone_ordered (steps extra : List (Aircraft × ℝ)) :
    (missionRun initMission steps).current_segment_index ≤
      (missionRun (missionRun initMission steps) extra).current_segment_index
    ∧ (missionRun (missionRun initMission steps) extra).current_segment_index ≤ 6
    ∧ (∀ i, (missionRun initMission steps).segCompleted i = true →
        (missionRun (missionRun initMission steps) extra).segCompleted i = true)
    ∧ (∀ i j, i ≤ j →
        (missionRun (missionRun initMission steps) extra).segCompleted j = true →
        (missionRun (missionRun initMission steps) extra).segCompleted i = true)
    ∧ (missionRun (missionRun initMission steps) extra).segments.map
        (fun seg => seg.name) = missionOrder := by
  have h1 := missionRun_inv steps initMission MInv_init
  have h2 := missionRun_inv extra (missionRun initMission steps) h1.1
  obtain ⟨hstat2, hbound2, hbelow2, habove2⟩ := h2.1
  refine ⟨h2.2.1, ?_, h2.2.2, ?_, MInv_names _ h2.1⟩
  · exact le_trans hbound2 (le_of_eq (MInv_length _ h2.1))
  · intro i j hij hcj
    have hj := habove2 j hcj
    have hij2 : i ≤ (missionRun (missionRun initMission steps)
        extra).current_segment_index := le_trans hij hj
    rcases lt_or_eq_of_le hij2 with hlt | heq
    · exact hbelow2 i hlt
    · have hji : j = i := le_antisymm (le_trans hj (le_of_eq heq.symm)) hij
      exact hji ▸ hcj

/-- Witness for C5's theorem on empty runs. -/
theorem mission_cursor_monotone_ordered_witness :
    (missionRun initMission []).current_segment_index ≤
      (missionRun (missionRun initMission []) []).current_segment_index ∧
    (missionRun (missionRun initMission []) []).segments.map
      (fun seg => seg.name) = missionOrder :=
  ⟨(mission_cursor_monotone_ordered [] []).1,
   (mission_cursor_monotone_ordered [] []).2.2.2.2⟩

/-- The per-tick behaviour of the WUTO warm-up timer. -/
lemma execute_wuto_progress (seg : MissionSegment) (a : Aircraft) (dt : ℝ) :
    (seg.progress < 30 →
      (Mission.execute_wuto seg a dt).1.progress = seg.progress + dt) ∧
    (30 ≤ seg.progress →
      (Mission.execute_wuto seg a dt).1.progress = seg.progress) := by
  constructor
  · intro h
    unfold Mission.execute_wuto
    rw [if_pos h]
  · intro h
    unfold Mission.execute_wuto
    rw [if_neg (not_lt.mpr h)]
    try simp only
    split_ifs <;> rfl

lemma execute_segment_wuto_dispatch (seg : MissionSegment) (a : Aircraft)
    (dt : ℝ) (h : seg.name = SegName.WUTO) :
    (Mission.execute_segment seg a dt).1 =
      (Mission.execute_wuto seg
        { a with mission_data.phase := seg.name.str } dt).1 := by
  unfold Mission.execute_segment
  rw [h]

lemma seg0_name_WUTO (m : Mission) (h : MInv m) :
    (m.segments.getD 0 dummySegment).name = SegName.WUTO := by
  have h0 : (m.segments.map (fun seg => seg.name)).getD 0 dummySegment.name =
      (m.segments.getD 0 dummySegment).name :=
    List.getD_map m.segments dummySegment (fun seg => seg.name)
  rw [MInv_names m h] at h0
  exact h0.symm

lemma wuto_step_bound (m : Mission) (a : Aircraft) (dt D : ℝ) (hm : MInv m)
    (hp : m.wutoProgress ≤ 30 + D) (h0 : 0 ≤ dt) (hD : dt ≤ D) :
    (m.update a dt).1.wutoProgress ≤ 30 + D := by
  rcases mission_update_char m a dt with ⟨hg, heq⟩ | ⟨hg, hsegs, hidx⟩
  · rw [heq]; exact hp
  · push_neg at hg
    obtain ⟨hnc, hlt⟩ := hg
    unfold Mission.wutoProgress at hp ⊢
    rw [hsegs]
    by_cases hi : m.current_segment_index = 0
    · rw [hi] at hlt ⊢
      rw [getD_set_eq _ _ _ _ hlt]
      rw [hi] at hsegs hidx
      rw [execute_segment_wuto_dispatch _ _ _ (seg0_name_WUTO m hm)]
      have hw := execute_wuto_progress (m.segments.getD 0 dummySegment)
        { a with mission_data.phase :=
          (m.segments.getD 0 dummySegment).name.str } dt
      by_cases hp30 : (m.segments.getD 0 dummySegment).progress < 30
      · rw [hw.1 hp30]; linarith
      · rw [hw.2 (not_lt.mp hp30)]; exact hp
    · rw [getD_set_ne _ _ _ _ _ (fun hh => hi hh.symm)]
      exact hp

lemma wuto_run_bound (D : ℝ) (steps : List (Aircraft × ℝ)) :
    ∀ m : Mission, MInv m → m.wutoProgress ≤ 30 + D →
    (∀ p ∈ steps, 0 ≤ p.2 ∧ p.2 ≤ D) →
    (missionRun m steps).wutoProgress ≤ 30 + D := by
  induction steps with
  | nil => exact fun m _ hp _ => hp
  | cons p ps ih =>
      intro m hm hp hs
      have hd := hs p (List.mem_cons_self p ps)
      exact ih (m.update p.1 p.2).1 (MInv_step m p.1 p.2 hm).1
        (wuto_step_bound m p.1 p.2 D hm hp hd.1 hd.2)
        (fun q hq => hs q (List.mem_cons_of_mem p hq))

/-- C10: `execute_wuto` increments the WUTO segment's `progress` by `dt`
exactly on ticks with `progress < 30`, and never once `progress ≥ 30`;
consequently on every run from the initial mission whose time steps all lie
in `[0, D]`, WUTO's progress never exceeds `30 + D`. -/
theorem wuto_progress_stops_at_warmup (D : ℝ) (hD : 0 ≤ D)
    (steps : List (Aircraft × ℝ)) (hs : ∀ p ∈ steps, 0 ≤ p.2 ∧ p.2 ≤ D) :
    (∀ seg a dt, (seg.progress < 30 →
        (Mission.execute_wuto seg a dt).1.progress = seg.progress + dt) ∧
      (30 ≤ seg.progress →
        (Mission.execute_wuto seg a dt).1.progress = seg.progress)) ∧
    (missionRun initMission steps).wutoProgress ≤ 30 + D := by
  refine ⟨fun seg a dt => execute_wuto_progress seg a dt, ?_⟩
  have hinit : initMission.wutoProgress ≤ 30 + D := by
    show (0 : ℝ) ≤ 30 + D
    linarith
  exact wuto_run_bound D steps initMission MInv_init hinit hs

/-- Witness for C10's theorem with bound 1 on the empty run. -/
theorem wuto_progress_stops_at_warmup_witness :
    (missionRun initMission []).wutoProgress ≤ 30 + 1 :=
  (wuto_progress_stops_at_warmup 1 (by norm_num) [] (by simp)).2

/-! Construction-time aircraft data is never written by any tick stage. -/

lemma apply_controls_config (a : Aircraft) (dt : ℝ) (k : Keys) :
    aircraftConfig (a.apply_controls dt k) = aircraftConfig a := by
  simp [Aircraft.apply_controls, aircraftConfig, apply_ite Aircraft.mass,
    apply_ite Aircraft.wing_area, apply_ite Aircraft.max_thrust,
    apply_ite Aircraft.fuel_capacity, apply_ite Aircraft.fuel_flow_rate]

lemma update_mission_data_config (a : Aircraft) (dt : ℝ) :
    aircraftConfig (a.update_mission_data dt) = aircraftConfig a := by
  simp [Aircraft.update_mission_data, aircraftConfig, apply_ite Aircraft.mass,
    apply_ite Aircraft.wing_area, apply_ite Aircraft.max_thrust,
    apply_ite Aircraft.fuel_capacity, apply_ite Aircraft.fuel_flow_rate]

lemma aircraft_update_config (a : Aircraft) (dt : ℝ) (k : Keys) :
    aircraftConfig (a.update dt k) = aircraftConfig a := by
  have hupd : a.update dt k =
      ((((if a.fuel_mass ≤ 0 then { a with throttle := 0 } else a).apply_controls dt
        k).update_physics dt).update_fuel dt).update_mission_data dt := rfl
  rw [hupd, update_mission_data_config]
  show aircraftConfig _ = _
  rw [show aircraftConfig ((((if a.fuel_mass ≤ 0 then { a with throttle := 0 } else
    a).apply_controls dt k).update_physics dt).update_fuel dt) =
    aircraftConfig ((if a.fuel_mass ≤ 0 then { a with throttle := 0 } else
      a).apply_controls dt k) from rfl]
  rw [apply_controls_config]
  split_ifs <;> rfl

lemma execute_wuto_config (seg : MissionSegment) (a : Aircraft) (dt : ℝ) :
    aircraftConfig (Mission.execute_wuto seg a dt).2 = aircraftConfig a := by
  unfold Mission.execute_wuto
  try simp only
  try (split_ifs <;> simp [aircraftConfig])
  try (split_ifs <;> simp [aircraftConfig])

lemma execute_climb_config (seg : MissionSegment) (a : Aircraft) (dt : ℝ) :
    aircraftConfig (Mission.execute_climb seg a dt).2 = aircraftConfig a := by
  unfold Mission.execute_climb
  try simp only
  try (split_ifs <;> simp [aircraftConfig])
  try (split_ifs <;> simp [aircraftConfig])

lemma execute_cruise_config (seg : MissionSegment) (a : Aircraft) (dt : ℝ) :
    aircraftConfig (Mission.execute_cruise seg a dt).2 = aircraftConfig a := by
  unfold Mission.execute_cruise
  cases hd : seg.distance <;> simp only [hd] <;> try simp only
  · try (split_ifs <;> simp [aircraftConfig])
    try (split_ifs <;> simp [aircraftConfig])
  · try (split_ifs <;> simp [aircraftConfig])
    try (split_ifs <;> simp [aircraftConfig])

lemma execute_turn_config (seg : MissionSegment) (a : Aircraft) (dt : ℝ) :
    aircraftConfig (Mission.execute_turn seg a dt).2 = aircraftConfig a := by
  unfold Mission.execute_turn
  try simp only
  try (split_ifs <;> simp [aircraftConfig])
  try (split_ifs <;> simp [aircraftConfig])

lemma execute_descent_config (seg : MissionSegment) (a : Aircraft) (dt : ℝ) :
    aircraftConfig (Mission.execute_descent seg a dt).2 = aircraftConfig a := by
  unfold Mission.execute_descent
  try simp only
  try (split_ifs <;> simp [aircraftConfig])
  try (split_ifs <;> simp [aircraftConfig])

lemma execute_landing_config (seg : MissionSegment) (a : Aircraft) (dt : ℝ) :
    aircraftConfig (Mission.execute_landing seg a dt).2 = aircraftConfig a := by
  unfold Mission.execute_landing
  try simp only
  try (split_ifs <;> simp [aircraftConfig])
  try (split_ifs <;> simp [aircraftConfig])

lemma execute_segment_config (seg : MissionSegment) (a : Aircraft) (dt : ℝ) :
    aircraftConfig (Mission.execute_segment seg a dt).2 = aircraftConfig a := by
  unfold Mission.execute_segment
  cases seg.name <;> dsimp only
  · exact (execute_wuto_config _ _ _).trans rfl
  · exact (execute_climb_config _ _ _).trans rfl
  · exact (execute_cruise_config _ _ _).trans rfl
  · exact (execute_turn_config _ _ _).trans rfl
  · exact (execute_descent_config _ _ _).trans rfl
  · exact (execute_landing_config _ _ _).trans rfl

lemma mission_update_config (m : Mission) (a : Aircraft) (dt : ℝ) :
    aircraftConfig (m.update a dt).2 = aircraftConfig a := by
  unfold Mission.update
  try simp only
  have h := execute_segment_config
    (m.segments.getD m.current_segment_index dummySegment) a dt
  simp only [aircraftConfig, Prod.mk.injEq] at h
  obtain ⟨h1, h2, h3, h4, h5⟩ := h
  split_ifs <;> simp_all [aircraftConfig]

lemma mission_update_statics (m : Mission) (a : Aircraft) (dt : ℝ) :
    (m.update a dt).1.segments.map segStatic = m.segments.map segStatic := by
  rcases mission_update_char m a dt with ⟨_, heq⟩ | ⟨hg, hsegs, _⟩
  · rw [heq]
  · push_neg at hg
    obtain ⟨_, hlt⟩ := hg
    rw [hsegs, List.map_set, execute_segment_static,
      ← List.getD_map m.segments dummySegment segStatic,
      set_getD_self _ _ _ (by rw [List.length_map]; exact hlt)]

lemma collision_policy_frame (dt agl : ℝ) (bd : EReal) (s : SimState) :
    aircraftConfig (collision_policy dt agl bd s).aircraft =
      aircraftConfig s.aircraft ∧
    (collision_policy dt agl bd s).mission = s.mission ∧
    (collision_policy dt agl bd s).paused = s.paused := by
  unfold collision_policy
  split_ifs <;> simp [aircraftConfig]

lemma check_collisions_frame (w : World) (s : SimState) (dt : ℝ) :
    aircraftConfig (check_collisions w s dt).aircraft = aircraftConfig s.aircraft ∧
    (check_collisions w s dt).mission = s.mission ∧
    (check_collisions w s dt).paused = s.paused := by
  unfold check_collisions
  exact collision_policy_frame _ _ _ _

lemma SInv_step (w : World) (s : SimState) (dt : ℝ) (k : Keys)
    (h : SInv s) : SInv (simUpdate w s dt k) := by
  obtain ⟨hc, hm, hd, hp⟩ := h
  unfold simUpdate
  split_ifs with hg
  · exact ⟨hc, hm, hd, hp⟩
  · try simp only
    refine ⟨?_, ?_, ?_, ?_⟩
    · rw [(check_collisions_frame w _ dt).1]
      show aircraftConfig (s.mission.update (s.aircraft.update dt k) dt).2 = _
      rw [mission_update_config, aircraft_update_config]
      exact hc
    · rw [(check_collisions_frame w _ dt).2.1]
      show ((s.mission.update (s.aircraft.update dt k) dt).1.segments.map segStatic) = _
      rw [mission_update_statics]
      exact hm
    · rw [(check_collisions_frame w _ dt).2.1]
      show (s.mission.update (s.aircraft.update dt k) dt).1.display_enabled = true
      rw [mission_update_display]
      exact hd
    · rw [(check_collisions_frame w _ dt).2.2]
      exact hp

lemma SInv_run (w : World) (steps : List (ℝ × Keys)) :
    ∀ s : SimState, SInv s → SInv (simTicks w s steps) := by
  induction steps with
  | nil => exact fun s h => h
  | cons p ps ih =>
      intro s h
      exact ih (simUpdate w s p.1 p.2) (SInv_step w s p.1 p.2 h)

/-! The three resets restore the construction-time state. -/

lemma reset_aircraft_eq (a : Aircraft)
    (h : aircraftConfig a = aircraftConfig initAircraft) :
    a.reset = initAircraft := by
  simp only [aircraftConfig, initAircraft, Prod.mk.injEq] at h
  obtain ⟨h1, h2, h3, h4, h5⟩ := h
  cases a
  simp_all [Aircraft.reset, initAircraft]

lemma reset_segments_eq (l : List MissionSegment)
    (h : l.map segStatic = defaultSegments.map segStatic) :
    l.map Mission.resetSegment = defaultSegments := by
  have hcomp : l.map Mission.resetSegment = (l.map segStatic).map segOfStatic := by
    rw [List.map_map]
    rfl
  rw [hcomp, h, List.map_map]
  rfl

lemma reset_mission_eq (m : Mission)
    (hstat : m.segments.map segStatic = defaultSegments.map segStatic)
    (hd : m.display_enabled = true) :
    m.reset = initMission := by
  have hsegs := reset_segments_eq m.segments hstat
  cases m
  simp_all [Mission.reset, initMission, initProfileData]

lemma reset_sim_eq (s : SimState) (h : SInv s) : simReset s = initSim := by
  obtain ⟨hc, hm, hd, hp⟩ := h
  have ha := reset_aircraft_eq s.aircraft hc
  have hmm := reset_mission_eq s.mission hm hd
  cases s
  simp_all [simReset, initSim]

/-- C9: after any sequence of driver ticks from the initial state, the
joint reset (`Aircraft.reset`, `MissionProfile.reset` and the driver
clearing the collision state) restores exactly the initial state, whose
components are the claimed initial values: position (0,500,0), velocity
(0,0,100), rotation (0,0,0), throttle 0.5, fuel at 80% of capacity, all
segments not completed with zero progress, cursor 0, no crash, no warning,
zero warning timer and empty sample histories. -/
theorem joint_reset_restores_initial (w : World) (steps : List (ℝ × Keys)) :
    simReset (simTicks w initSim steps) = initSim
    ∧ initSim.aircraft.position = ⟨0, 500, 0⟩
    ∧ initSim.aircraft.velocity = ⟨0, 0, 100⟩
    ∧ initSim.aircraft.rotation = ⟨0, 0, 0⟩
    ∧ initSim.aircraft.throttle = 0.5
    ∧ initSim.aircraft.fuel_mass = 0.8 * initSim.aircraft.fuel_capacity
    ∧ (∀ i, initSim.mission.segCompleted i = false)
    ∧ (∀ i, (initSim.mission.segments.getD i dummySegment).progress = 0)
    ∧ initSim.mission.current_segment_index = 0
    ∧ initSim.crashed = false
    ∧ initSim.collision_warning = false
    ∧ initSim.warning_timer = 0
    ∧ initSim.aircraft.mission_data.time = []
    ∧ initSim.mission.profile_data.altitude = [] := by
  refine ⟨reset_sim_eq _ (SInv_run w steps initSim ⟨rfl, rfl, rfl, rfl⟩),
    rfl, rfl, rfl, rfl, by norm_num [initSim, initAircraft], ?_, ?_, rfl, rfl,
    rfl, rfl, rfl, rfl⟩
  · intro i
    exact default_segments_completed i
  · intro i
    match i with
    | 0 => rfl
    | 1 => rfl
    | 2 => rfl
    | 3 => rfl
    | 4 => rfl
    | 5 => rfl
    | n + 6 => rfl

end

end FlightSim
